import Mathlib

/-!
# Nudgy reminder app: formal model of the reminder lifecycle and scheduling core

This file is a shallow embedding of the reminder-app source (a single React
Native component).  The pure core consists of:

* scheduleNotification (source lines 70-92): computes per-index occurrence
  times for a reminder and issues backend notification requests;
* loadReminders / saveReminders (lines 94-116): persistence of the reminder
  collection via a single key-value entry, JSON-encoded;
* addReminder (lines 118-148): validated creation of a reminder;
* deleteReminder (lines 150-159): removal plus cancel-all and full reschedule.

Host-platform facilities used by the source (the JS Date calendar,
JSON/AsyncStorage, expo-notifications, parseInt) are modelled explicitly:

* A JS Date value is its epoch-milliseconds timestamp (an Int).  The civil
  (proleptic Gregorian) calendar conversions behind getDate / setDate /
  toISOString are spelled out below; the host clock is modelled as UTC, which
  is faithful because the source only ever combines local-clock reads with
  local-clock writes (the spec excludes timezone conversion).
* The notification backend is modelled as the ordered list of calls a run
  issues (schedule requests and cancel-all).
* AsyncStorage plus JSON is modelled by the parsed shape of the stored value:
  records whose fields may be absent, since JSON.parse performs no schema
  validation.
* Math.random-generated identifiers are modelled as an oracle input: the
  fresh id is a parameter of addReminder.
-/

namespace Nudgy

/-! ## Civil calendar arithmetic (model of the host JS Date)

Days are counted from the Unix epoch 1970-01-01.  The day-to-civil-date
direction is decomposed era / century / year-of-century / day-of-year with
quotient formulas chosen to be invertible by linear arithmetic; it agrees
with the standard algorithms on the full JS Date range.
-/

def msPerDay : Int := 86400000

def msPerHour : Int := 3600000

/-- Era index of a day count: eras are 146097-day (400-year) Gregorian
cycles, era 0 starting on 0000-03-01. -/
def eraOf (z : Int) : Int := (z + 719468) / 146097

/-- Day within the 400-year era, in [0, 146096]. -/
def doeOf (z : Int) : Int := (z + 719468) % 146097

/-- Century within the era, in [0, 3]. -/
def centOf (z : Int) : Int := (4 * doeOf z + 3) / 146097

/-- Day within the century, in [0, 36524]. -/
def dcentOf (z : Int) : Int := doeOf z - 146097 * centOf z / 4

/-- Year within the century, in [0, 99] (March-based years). -/
def ycOf (z : Int) : Int := (4 * dcentOf z + 3) / 1461

/-- Day within the March-based year, in [0, 365]. -/
def doyOf (z : Int) : Int := dcentOf z - 1461 * ycOf z / 4

/-- Year within the era, in [0, 399]. -/
def yoeOf (z : Int) : Int := 100 * centOf z + ycOf z

/-- March-based month index of the day, in [0, 11] (0 = March). -/
def mpOf (z : Int) : Int := (5 * doyOf z + 2) / 153

/-- Civil day-of-month of a day count, in [1, 31]. -/
def dayOf (z : Int) : Int := doyOf z - (153 * mpOf z + 2) / 5 + 1

/-- Civil month of a day count, in [1, 12]. -/
def monthOf (z : Int) : Int := if mpOf z < 10 then mpOf z + 3 else mpOf z - 9

/-- Civil year of a day count. -/
def yearOf (z : Int) : Int :=
  (if monthOf z ≤ 2 then 1 else 0) + yoeOf z + eraOf z * 400

/-- Civil date (year, month, day) of a day count since 1970-01-01. -/
def civilYMD (z : Int) : Int × Int × Int := (yearOf z, monthOf z, dayOf z)

/-- Day count since 1970-01-01 of a civil date (Howard Hinnant's
days-from-civil formula); total, with out-of-range day/month rolling over
exactly as JS Date normalisation does. -/
def daysFromCivil (y m d : Int) : Int :=
  let yy := if m ≤ 2 then y - 1 else y
  let era := yy / 400
  let yoe := yy - era * 400
  let mp := if 2 < m then m - 3 else m + 9
  let doy := (153 * mp + 2) / 5 + d - 1
  let doe := yoe * 365 + yoe / 4 - yoe / 100 + doy
  era * 146097 + doe - 719468

/-- Model of JS Date.prototype.getDate (day of month, 1-31) on an epoch-ms
timestamp. -/
def getDate (t : Int) : Int := dayOf (t / msPerDay)

/-- Model of JS Date.prototype.setDate: replace the day-of-month component,
keeping year, month and time-of-day; out-of-range days roll over. -/
def setDate (t dayOfMonth : Int) : Int :=
  let z := t / msPerDay
  (daysFromCivil (yearOf z) (monthOf z) 1 + (dayOfMonth - 1)) * msPerDay
    + t % msPerDay

/-- Structured content of an ISO-8601 timestamp string, as produced by JS
Date.prototype.toISOString (millisecond precision). -/
structure ISOParts where
  year : Int
  month : Int
  day : Int
  hour : Int
  minute : Int
  second : Int
  millisecond : Int
deriving DecidableEq, Repr

/-- Model of Date.prototype.toISOString: decompose an epoch-ms timestamp
into calendar fields (the string formatting itself is a bijection on these
fields and is elided). -/
def toISOParts (t : Int) : ISOParts :=
  let z := t / msPerDay
  let tod := t % msPerDay
  { year := yearOf z
    month := monthOf z
    day := dayOf z
    hour := tod / msPerHour
    minute := tod % msPerHour / 60000
    second := tod % 60000 / 1000
    millisecond := tod % 1000 }

/-- Model of new Date(isoString): recompose the epoch-ms timestamp from the
calendar fields of an ISO-8601 timestamp string. -/
def ofISOParts (p : ISOParts) : Int :=
  daysFromCivil p.year p.month p.day * msPerDay
    + p.hour * msPerHour + p.minute * 60000 + p.second * 1000 + p.millisecond

/-! ## Data model (source lines 22-27) -/

/-- The Reminder entity: interface Reminder of the source.  The time field
is the epoch-ms timestamp of the stored JS Date.  repeatCount is an Int
(a JS number); addReminder only ever stores values that are at least 1. -/
structure Reminder where
  id : String
  name : String
  time : Int
  repeatCount : Int
deriving DecidableEq, Repr

/-! ## Notification backend interface (expo-notifications, consumed) -/

/-- Content payload of a scheduled notification. -/
structure NotificationContent where
  title : String
  body : String
deriving DecidableEq, Repr

/-- Trigger specification accepted by the backend: either a (possibly
repeating) time-interval trigger or an absolute-date one-shot trigger. -/
inductive TriggerInput where
  | timeInterval (seconds : Int) (repeats : Bool)
  | date (timestamp : Int)
deriving DecidableEq, Repr

/-- One scheduleNotificationAsync request. -/
structure NotificationRequest where
  content : NotificationContent
  trigger : TriggerInput
deriving DecidableEq, Repr

/-- A backend call observable from the core: a schedule request or
cancelAllScheduledNotificationsAsync. -/
inductive BackendCall where
  | schedule (req : NotificationRequest)
  | cancelAll
deriving DecidableEq, Repr

/-! ## scheduleNotification (source lines 70-92)

The source reads the clock (now), copies reminder.time, replaces its
day-of-month with the current day via setDate, then for each index
i < repeatCount computes fireDate = reminderTime + i hours and, when
fireDate is strictly after now, issues one request with fixed title
"Reminder", body = reminder.name, and trigger
type TIME_INTERVAL, seconds 1.5 * 60 * 60 = 5400, repeats true.
The result is the ordered list of issued requests.
-/

def scheduleNotification (now : Int) (reminder : Reminder) : List NotificationRequest :=
  (List.range reminder.repeatCount.toNat).filterMap fun i =>
    if now < setDate reminder.time (getDate now) + (i : Int) * 3600 * 1000 then
      some { content := { title := "Reminder", body := reminder.name }
             trigger := TriggerInput.timeInterval 5400 true }
    else
      none

/-! ## Persistence (source lines 94-116)

saveReminders JSON-stringifies the list (Dates become ISO timestamp
strings); loadReminders JSON-parses the stored value and maps each record,
replacing its time field with new Date(r.time).  JSON.parse performs no
schema validation, so a parsed record is modelled with optional fields; an
absent or unparseable time yields an invalid date, modelled as none.
-/

/-- A record of the parsed stored JSON array; any field may be absent. -/
structure LooseRecord where
  id : Option String
  name : Option String
  time : Option ISOParts
  repeatCount : Option Int
deriving DecidableEq, Repr

/-- An element of the in-memory list produced by loadReminders: the spread
of a parsed record with its time field replaced by a Date value. -/
structure LooseReminder where
  id : Option String
  name : Option String
  time : Option Int
  repeatCount : Option Int
deriving DecidableEq, Repr

/-- State of the persisted "reminders" key as seen by loadReminders:
absent (getItem returns null), corrupt (the storage read or JSON.parse
throws; the catch block swallows the error), or a parsed JSON array of
records. -/
inductive StoredState where
  | absent
  | corrupt
  | value (records : List LooseRecord)
deriving DecidableEq, Repr

/-- The per-record mapping of loadReminders: spread the record and replace
time with new Date(r.time). -/
def decodeRecord (r : LooseRecord) : LooseReminder :=
  { id := r.id, name := r.name, time := r.time.map ofISOParts
    repeatCount := r.repeatCount }

/-- loadReminders: the in-memory list resulting from a load.  When nothing
is stored, or when the read or parse throws, the initial empty list is kept
(the catch only logs); otherwise every parsed record is mapped blindly. -/
def loadReminders : StoredState → List LooseReminder
  | StoredState.absent => []
  | StoredState.corrupt => []
  | StoredState.value records => records.map decodeRecord

/-- saveReminders: the stored value written by JSON.stringify - a full
overwrite with one record per reminder, every field present, the time as an
ISO timestamp string. -/
def saveReminders (reminders : List Reminder) : List LooseRecord :=
  reminders.map fun r =>
    { id := some r.id, name := some r.name, time := some (toISOParts r.time)
      repeatCount := some r.repeatCount }

/-- The injection of an in-memory reminder into the loose shape loadReminders
produces; it preserves id, name, time and repeatCount exactly. -/
def reminderToLoose (r : Reminder) : LooseReminder :=
  { id := some r.id, name := some r.name, time := some r.time
    repeatCount := some r.repeatCount }

/-- Well-formedness of a stored record with respect to the documented
persisted schema: all four fields present. -/
def LooseRecord.wellFormed (r : LooseRecord) : Bool :=
  r.id.isSome && r.name.isSome && r.time.isSome && r.repeatCount.isSome

/-! ## parseInt (host, consumed by addReminder)

Model of the ECMAScript parseInt with no radix argument on the inputs the
form can produce: skip leading ASCII whitespace, optional sign, optional
0x/0X hex prefix, then the maximal digit prefix; no digits means NaN,
modelled as none.
-/

def isHexDigitJS (c : Char) : Bool :=
  c.isDigit || ('a' ≤ c && c ≤ 'f') || ('A' ≤ c && c ≤ 'F')

def hexVal (c : Char) : Int :=
  if c.isDigit then (c.toNat : Int) - 48
  else if 'a' ≤ c && c ≤ 'f' then (c.toNat : Int) - 87
  else (c.toNat : Int) - 55

def parseIntJS (s : String) : Option Int :=
  let cs := s.toList.dropWhile fun c => c == ' ' || c == '\t' || c == '\n' || c == '\r'
  let neg := cs.head? == some '-'
  let cs1 := if cs.head? == some '-' || cs.head? == some '+' then cs.tail else cs
  let hex := match cs1 with
             | '0' :: c :: _ => c == 'x' || c == 'X'
             | _ => false
  let body := if hex then cs1.drop 2 else cs1
  let radix : Int := if hex then 16 else 10
  let digits := body.takeWhile fun c => if hex then isHexDigitJS c else c.isDigit
  if digits.isEmpty then none
  else
    let mag := digits.foldl (fun a c => a * radix + hexVal c) 0
    some (if neg then -mag else mag)

/-! ## ReminderService operations (source lines 118-159)

Each operation is a function from the current in-memory list (and its
non-deterministic inputs: the clock and the generated id) to the new
in-memory list together with the effects it performs: the arguments of each
saveReminders call and the ordered backend calls.
-/

/-- The observable outcome of one add or delete operation. -/
structure OpResult where
  reminders : List Reminder
  saved : List (List Reminder)
  backend : List BackendCall
  validationError : Bool
deriving DecidableEq, Repr

/-- addReminder: reject when the name is empty, the repeat-count input is
empty, parseInt yields NaN, or the parsed value is below 1 (the source
shows an alert and returns).  Otherwise append the new reminder (with the
generated id and the parsed repeat count), persist the full updated list,
and schedule occurrences for the new reminder only. -/
def addReminder (reminders : List Reminder) (name repeatCountInput : String)
    (time : Int) (newId : String) (now : Int) : OpResult :=
  if name == "" || repeatCountInput == "" || (parseIntJS repeatCountInput).isNone
      || decide ((parseIntJS repeatCountInput).getD 0 < 1) then
    { reminders := reminders, saved := [], backend := [], validationError := true }
  else
    let newReminder : Reminder :=
      { id := newId, name := name, time := time
        repeatCount := (parseIntJS repeatCountInput).getD 0 }
    let updatedReminders := reminders ++ [newReminder]
    { reminders := updatedReminders
      saved := [updatedReminders]
      backend := (scheduleNotification now newReminder).map BackendCall.schedule
      validationError := false }

/-- deleteReminder: filter out every reminder whose id equals the argument,
persist the updated list, cancel all scheduled notifications, then
reschedule each remaining reminder in list order. -/
def deleteReminder (reminders : List Reminder) (id : String) (now : Int) : OpResult :=
  let updatedReminders := reminders.filter fun r => r.id != id
  { reminders := updatedReminders
    saved := [updatedReminders]
    backend := BackendCall.cancelAll ::
      updatedReminders.flatMap fun r =>
        (scheduleNotification now r).map BackendCall.schedule
    validationError := false }

/-! ## Operation sequences (for the id-uniqueness invariant) -/

/-- One user action with its non-deterministic inputs. -/
inductive Op where
  | addOp (name repeatCountInput : String) (time : Int) (newId : String) (now : Int)
  | deleteOp (id : String) (now : Int)
deriving DecidableEq, Repr

/-- The in-memory list after one operation. -/
def applyOp (state : List Reminder) : Op → List Reminder
  | Op.addOp name rc time newId now => (addReminder state name rc time newId now).reminders
  | Op.deleteOp id now => (deleteReminder state id now).reminders

/-- The in-memory list after a sequence of operations. -/
def runOps (state : List Reminder) : List Op → List Reminder
  | [] => state
  | op :: rest => runOps (applyOp state op) rest

/-- The id oracle never returns an id that is currently in the collection,
checked along the whole run. -/
def freshIds (state : List Reminder) : List Op → Bool
  | [] => true
  | op :: rest =>
    (match op with
     | Op.addOp _ _ _ newId _ => !((state.map Reminder.id).contains newId)
     | Op.deleteOp _ _ => true) && freshIds (applyOp state op) rest

/-! ## Spec-side comparators

These definitions follow the specification's words, not the source; they
exist only to be compared against the source-derived definitions above.
-/

/-- Spec-side todayAt: the current day's date combined with the stored
value's time-of-day, regardless of the stored date. -/
def todayAtSpec (now t : Int) : Int := now / msPerDay * msPerDay + t % msPerDay

/-- Spec-side request count: the number of indices i below repeatCount whose
occurrence time todayAt(time) + i hours is strictly after now. -/
def specRequestCount (now : Int) (r : Reminder) : Nat :=
  ((List.range r.repeatCount.toNat).filter fun i =>
    decide (now < todayAtSpec now r.time + (i : Int) * msPerHour)).length

/-- Spec-side validity of a repeat-count input: the string is a plain
base-10 integer numeral with value at least 1. -/
def isDecimalIntegerGe1 (s : String) : Bool :=
  !s.isEmpty && s.toList.all Char.isDigit
    && decide (1 ≤ s.toList.foldl (fun a c => a * 10 + ((c.toNat : Int) - 48)) 0)


/-! ## Calendar round trip -/

theorem doeOf_bounds (z : Int) : 0 ≤ doeOf z ∧ doeOf z < 146097 := by
  unfold doeOf; omega

theorem era_doe (z : Int) : eraOf z * 146097 + doeOf z = z + 719468 := by
  unfold eraOf doeOf; omega

theorem centOf_bounds (z : Int) : 0 ≤ centOf z ∧ centOf z ≤ 3 := by
  have h := doeOf_bounds z
  unfold centOf; omega

theorem cent_div4 (z : Int) : 146097 * centOf z / 4 = 36524 * centOf z := by
  have h := centOf_bounds z
  omega

theorem dcentOf_bounds (z : Int) : 0 ≤ dcentOf z ∧ dcentOf z ≤ 36524 := by
  have h := doeOf_bounds z
  have h2 := cent_div4 z
  unfold dcentOf at h2 ⊢
  unfold centOf at h2 ⊢
  omega

theorem ycOf_bounds (z : Int) : 0 ≤ ycOf z ∧ ycOf z ≤ 99 := by
  have h := dcentOf_bounds z
  unfold ycOf; omega

theorem yc_div4 (z : Int) : 1461 * ycOf z / 4 = 365 * ycOf z + ycOf z / 4 := by
  have h := ycOf_bounds z
  omega

theorem doyOf_bounds (z : Int) : 0 ≤ doyOf z ∧ doyOf z ≤ 365 := by
  have h := dcentOf_bounds z
  have h2 := yc_div4 z
  unfold doyOf at h2 ⊢
  unfold ycOf at h2 ⊢
  omega

theorem mpOf_bounds (z : Int) : 0 ≤ mpOf z ∧ mpOf z ≤ 11 := by
  have h := doyOf_bounds z
  unfold mpOf; omega

theorem yoeOf_bounds (z : Int) : 0 ≤ yoeOf z ∧ yoeOf z ≤ 399 := by
  have hc := centOf_bounds z
  have hy := ycOf_bounds z
  unfold yoeOf; omega

theorem yoe_div100 (z : Int) : yoeOf z / 100 = centOf z := by
  have hc := centOf_bounds z
  have hy := ycOf_bounds z
  unfold yoeOf; omega

theorem yoe_div4 (z : Int) : yoeOf z / 4 = 25 * centOf z + ycOf z / 4 := by
  have hc := centOf_bounds z
  have hy := ycOf_bounds z
  unfold yoeOf; omega

theorem dys_sum (z : Int) :
    yoeOf z * 365 + yoeOf z / 4 - yoeOf z / 100 + doyOf z = doeOf z := by
  have h1 := yoe_div100 z
  have h2 := yoe_div4 z
  have h3 := yc_div4 z
  have h4 := cent_div4 z
  have h5 : doyOf z = dcentOf z - 1461 * ycOf z / 4 := rfl
  have h6 : dcentOf z = doeOf z - 146097 * centOf z / 4 := rfl
  have h7 : yoeOf z = 100 * centOf z + ycOf z := rfl
  omega

/-- The civil decomposition of a day count inverts days-from-civil, for
every integer day count. -/
theorem daysFromCivil_civilYMD (z : Int) :
    daysFromCivil (yearOf z) (monthOf z) (dayOf z) = z := by
  have hed := era_doe z
  have hyoeb := yoeOf_bounds z
  have hmp := mpOf_bounds z
  have hsum := dys_sum z
  have hday : dayOf z = doyOf z - (153 * mpOf z + 2) / 5 + 1 := rfl
  simp only [daysFromCivil, yearOf, monthOf]
  split_ifs <;> omega

/-- Encoding a timestamp as an ISO-8601 string and parsing it back is the
identity: no precision is lost, down to the millisecond. -/
theorem ofISOParts_toISOParts (t : Int) : ofISOParts (toISOParts t) = t := by
  have h := daysFromCivil_civilYMD (t / msPerDay)
  simp only [ofISOParts, toISOParts, h]
  unfold msPerDay msPerHour
  unfold msPerDay at h
  omega

/-! ## Generic list helpers -/

theorem filterMap_ite_const {A B : Type} (l : List A) (q : A → Prop)
    [DecidablePred q] (b : B) :
    (l.filterMap fun a => if q a then some b else none) =
      List.replicate (l.filter fun a => decide (q a)).length b := by
  induction l with
  | nil => rfl
  | cons a t ih =>
    by_cases h : q a <;>
      simp [List.filterMap_cons, List.filter_cons, h, ih, List.replicate_succ]


/-! ## Persistence round trip -/

theorem decodeRecord_encode (r : Reminder) :
    decodeRecord
      { id := some r.id, name := some r.name, time := some (toISOParts r.time)
        repeatCount := some r.repeatCount } = reminderToLoose r := by
  simp [decodeRecord, reminderToLoose, ofISOParts_toISOParts]

/-- C7: saving any collection and loading it back returns the same
collection: same length and order, and for each element the same id, name,
repeat count and time, the time preserved exactly (hence in particular up to
sub-second precision). -/
theorem c7_save_load_roundtrip (X : List Reminder) :
    loadReminders (StoredState.value (saveReminders X)) = X.map reminderToLoose := by
  simp only [loadReminders, saveReminders, List.map_map, Function.comp_def,
    decodeRecord_encode]

/-- C8 counterexample: a stored record violating the persisted schema (all
fields absent, the parse of the JSON text [{}]) is not degraded to the empty
collection: loadReminders maps it blindly into a non-empty result. -/
theorem c8_malformed_counterexample :
    LooseRecord.wellFormed
        { id := none, name := none, time := none, repeatCount := none } = false ∧
      loadReminders (StoredState.value
        [{ id := none, name := none, time := none, repeatCount := none }]) ≠ [] := by
  decide

/-- C8 amended: loadReminders yields the empty sequence when nothing is
persisted or when the storage read or JSON parse throws (the failure is
swallowed by the catch block and never propagates); but parsed records that
merely violate the schema are not rejected - they are mapped into the
result as-is. -/
theorem c8_load_amended :
    loadReminders StoredState.absent = [] ∧
      loadReminders StoredState.corrupt = [] ∧
      ∀ records, loadReminders (StoredState.value records) = records.map decodeRecord :=
  ⟨rfl, rfl, fun _ => rfl⟩

/-! ## scheduleNotification: counts, contents, triggers -/

/-- C1: evaluating scheduleNotification at a failing input.  For a reminder
at 14:00 with repeat count 1, evaluated at 10:00 the same day, the single
issued request carries the trigger timeInterval 5400 repeats-true - a
repeating 90-minute interval trigger - rather than a one-shot fire at the
computed occurrence time 14:00 (which the source computes as fireDate and
then ignores except for the skip test). -/
theorem c1_trigger_fixed_interval :
    scheduleNotification (daysFromCivil 2026 10 12 * msPerDay + 10 * msPerHour)
        { id := "r1", name := "Take meds"
          time := daysFromCivil 2026 10 12 * msPerDay + 14 * msPerHour
          repeatCount := 1 } =
      [{ content := { title := "Reminder", body := "Take meds" }
         trigger := TriggerInput.timeInterval 5400 true }] := by
  decide

/-- C2 counterexample: the base occurrence time the code uses is not
todayAt(reminder.time).  For a reminder stored on 2026-01-15 at 14:00 with
repeat count 3, evaluated at 2026-02-10 10:00, the code issues 0 requests
(its base keeps the stored month, landing on 2026-01-10, entirely in the
past) while the claimed count, with base todayAt(time) = 2026-02-10 14:00,
is 3. -/
theorem c2_count_counterexample :
    (scheduleNotification (daysFromCivil 2026 2 10 * msPerDay + 10 * msPerHour)
        { id := "r1", name := "Take meds"
          time := daysFromCivil 2026 1 15 * msPerDay + 14 * msPerHour
          repeatCount := 3 }).length = 0 ∧
      specRequestCount (daysFromCivil 2026 2 10 * msPerDay + 10 * msPerHour)
        { id := "r1", name := "Take meds"
          time := daysFromCivil 2026 1 15 * msPerDay + 14 * msPerHour
          repeatCount := 3 } = 3 := by
  decide

/-- C2 amended: scheduleOccurrences issues exactly as many backend requests
as there are indices i below repeatCount with base + i hours strictly after
now, where the base is the stored time with only its day-of-month replaced
by the current day (setDate), not todayAt(time); and every issued request
has fixed title "Reminder" and body equal to the reminder's name. -/
theorem c2_count_amended (now : Int) (r : Reminder) :
    (scheduleNotification now r).length =
      ((List.range r.repeatCount.toNat).filter fun i =>
        decide (now < setDate r.time (getDate now) + (i : Int) * 3600 * 1000)).length ∧
    (scheduleNotification now r).map NotificationRequest.content =
      List.replicate (scheduleNotification now r).length
        { title := "Reminder", body := r.name } := by
  have h : scheduleNotification now r =
      List.replicate ((List.range r.repeatCount.toNat).filter fun i =>
        decide (now < setDate r.time (getDate now) + (i : Int) * 3600 * 1000)).length
        { content := { title := "Reminder", body := r.name }
          trigger := TriggerInput.timeInterval 5400 true } := by
    unfold scheduleNotification
    exact filterMap_ite_const _ _ _
  rw [h]
  simp

/-- C3: evaluating the scheduling base at a failing input.  The code
replaces only the day-of-month of the stored time with the current day; the
stored month and year survive.  For a reminder created 2026-01-15 at 14:00,
scheduled at 2026-02-10 10:00, the base used is 2026-01-10 14:00, not
today's 2026-02-10 14:00. -/
theorem c3_setDate_eval :
    setDate (daysFromCivil 2026 1 15 * msPerDay + 14 * msPerHour)
        (getDate (daysFromCivil 2026 2 10 * msPerDay + 10 * msPerHour)) =
      daysFromCivil 2026 1 10 * msPerDay + 14 * msPerHour ∧
    todayAtSpec (daysFromCivil 2026 2 10 * msPerDay + 10 * msPerHour)
        (daysFromCivil 2026 1 15 * msPerDay + 14 * msPerHour) =
      daysFromCivil 2026 2 10 * msPerDay + 14 * msPerHour ∧
    setDate (daysFromCivil 2026 1 15 * msPerDay + 14 * msPerHour)
        (getDate (daysFromCivil 2026 2 10 * msPerDay + 10 * msPerHour)) ≠
      todayAtSpec (daysFromCivil 2026 2 10 * msPerDay + 10 * msPerHour)
        (daysFromCivil 2026 1 15 * msPerDay + 14 * msPerHour) := by
  decide


/-! ## addReminder: validation and the success path -/

theorem parseIntJS_empty : parseIntJS "" = none := rfl

theorem parseIntJS_some_ne_empty {s : String} {n : Int}
    (h : parseIntJS s = some n) : s ≠ "" := by
  intro he
  rw [he, parseIntJS_empty] at h
  exact Option.noConfusion h

/-- C4 counterexample: the input "2x" is not a base-10 integer, yet
addReminder accepts it (parseInt takes the maximal digit prefix, 2): no
validation error is raised and the collection grows. -/
theorem c4_accepts_nonnumeric_counterexample :
    isDecimalIntegerGe1 "2x" = false ∧
      (addReminder [] "water" "2x" 0 "id1" 0).validationError = false ∧
      (addReminder [] "water" "2x" 0 "id1" 0).reminders ≠ [] := by
  decide

/-- C4 amended: addReminder accepts its input exactly when the name is
non-empty and parseInt applied to the repeat-count input yields a value of
at least 1 (so inputs with a numeric prefix such as "2x" are accepted, not
only base-10 integer numerals); on rejection it leaves the reminder
collection untouched, persists nothing, and issues no backend calls. -/
theorem c4_validation_amended (state : List Reminder) (name rc : String)
    (time : Int) (newId : String) (now : Int) :
    ((addReminder state name rc time newId now).validationError = false ↔
      name ≠ "" ∧ ∃ n, parseIntJS rc = some n ∧ 1 ≤ n) ∧
    ((addReminder state name rc time newId now).validationError = true →
      (addReminder state name rc time newId now).reminders = state ∧
      (addReminder state name rc time newId now).saved = [] ∧
      (addReminder state name rc time newId now).backend = []) := by
  rcases h : parseIntJS rc with _ | n
  · constructor
    · simp [addReminder, h]
    · intro _
      simp [addReminder, h]
  · have hrc : (rc == "") = false := by
      have := parseIntJS_some_ne_empty h
      simp [this]
    by_cases hn : name = ""
    · constructor
      · simp [addReminder, h, hn]
      · intro _
        simp [addReminder, h, hn]
    · have hnb : (name == "") = false := by simp [hn]
      by_cases h1 : (1 : Int) ≤ n
      · constructor
        · simp only [addReminder, h, hrc, hnb]
          simp [h1, hn, not_lt.mpr h1]
        · intro herr
          exfalso
          simp only [addReminder, h, hrc, hnb] at herr
          simp [not_lt.mpr h1] at herr
      · constructor
        · simp only [addReminder, h, hrc, hnb]
          simp [hn, not_le.mp h1]
        · intro _
          simp only [addReminder, h, hrc, hnb]
          simp [not_le.mp h1]

/-- C4 amended witness: the rejected input (empty name, repeat count "0")
raises a validation error and leaves everything unchanged. -/
theorem c4_validation_amended_witness :
    (addReminder [] "" "0" 0 "id1" 0).validationError = true ∧
      (addReminder [] "" "0" 0 "id1" 0).reminders = [] :=
  ⟨by decide, ((c4_validation_amended [] "" "0" 0 "id1" 0).2 (by decide)).1⟩

theorem cancelAll_not_mem_schedule_map (reqs : List NotificationRequest) :
    BackendCall.cancelAll ∉ reqs.map BackendCall.schedule := by
  simp [List.mem_map]

theorem addReminder_valid_eq (state : List Reminder) (name rc : String)
    (time : Int) (newId : String) (now : Int) (n : Int)
    (hname : name ≠ "") (hp : parseIntJS rc = some n) (hn : 1 ≤ n) :
    addReminder state name rc time newId now =
      { reminders :=
          state ++ [{ id := newId, name := name, time := time, repeatCount := n }]
        saved :=
          [state ++ [{ id := newId, name := name, time := time, repeatCount := n }]]
        backend :=
          (scheduleNotification now
            { id := newId, name := name, time := time, repeatCount := n }).map
            BackendCall.schedule
        validationError := false } := by
  have hrc : (rc == "") = false := by
    have := parseIntJS_some_ne_empty hp
    simp [this]
  have hnb : (name == "") = false := by simp [hname]
  simp only [addReminder, hp, Option.getD_some, Option.isNone_some]
  rw [if_neg]
  simp only [hnb, hrc, Bool.false_or, Bool.or_false, Bool.or_eq_true,
    decide_eq_true_eq, not_or]
  omega

/-- C5: for every valid input (non-empty name, repeat-count input parsing
to n with n at least 1), addReminder raises no error, appends a reminder
with exactly repeat count n (and the supplied id, name and time) at the end
of the in-memory list, persists exactly the full updated list - whose
length is the old length plus one - and issues as backend calls exactly the
schedule requests for the new reminder only, with no cancel. -/
theorem c5_add_valid (state : List Reminder) (name rc : String) (time : Int)
    (newId : String) (now : Int) (n : Int)
    (hname : name ≠ "") (hp : parseIntJS rc = some n) (hn : 1 ≤ n) :
    (addReminder state name rc time newId now).validationError = false ∧
    (addReminder state name rc time newId now).reminders =
      state ++ [{ id := newId, name := name, time := time, repeatCount := n }] ∧
    (addReminder state name rc time newId now).saved =
      [state ++ [{ id := newId, name := name, time := time, repeatCount := n }]] ∧
    (state ++
      [({ id := newId, name := name, time := time, repeatCount := n } : Reminder)]).length
      = state.length + 1 ∧
    (addReminder state name rc time newId now).backend =
      (scheduleNotification now
        { id := newId, name := name, time := time, repeatCount := n }).map
        BackendCall.schedule ∧
    BackendCall.cancelAll ∉ (addReminder state name rc time newId now).backend := by
  rw [addReminder_valid_eq state name rc time newId now n hname hp hn]
  exact ⟨rfl, rfl, rfl, by simp, rfl, cancelAll_not_mem_schedule_map _⟩

/-- C5 witness: adding "Water" with repeat count input "3" to the empty
collection appends exactly the reminder with repeat count 3. -/
theorem c5_add_valid_witness :
    ("Water" ≠ "" ∧ parseIntJS "3" = some 3 ∧ (1 : Int) ≤ 3) ∧
      (addReminder [] "Water" "3" 0 "id1" 0).reminders =
        [] ++ [{ id := "id1", name := "Water", time := 0, repeatCount := 3 }] :=
  ⟨⟨by decide, by decide, by decide⟩,
    (c5_add_valid [] "Water" "3" 0 "id1" 0 3 (by decide) (by decide) (by decide)).2.1⟩


/-! ## deleteReminder -/

theorem filter_ne_id_of_not_mem {l : List Reminder} {i : String}
    (h : i ∉ l.map Reminder.id) : l.filter (fun r => r.id != i) = l := by
  induction l with
  | nil => rfl
  | cons a t ih =>
    simp only [List.map_cons, List.mem_cons, not_or] at h
    simp only [List.filter_cons]
    have hne : (a.id != i) = true := by
      simp only [bne_iff_ne, ne_eq]
      exact fun he => h.1 he.symm
    rw [if_pos hne, ih h.2]

theorem filter_ne_id_length {l : List Reminder} {i : String}
    (hnd : (l.map Reminder.id).Nodup) (hm : i ∈ l.map Reminder.id) :
    (l.filter fun r => r.id != i).length + 1 = l.length := by
  induction l with
  | nil => simp at hm
  | cons a t ih =>
    simp only [List.map_cons, List.nodup_cons] at hnd
    by_cases hai : a.id = i
    · have hnot : i ∉ t.map Reminder.id := by rw [← hai]; exact hnd.1
      simp only [List.filter_cons]
      rw [if_neg (by simp [hai]), filter_ne_id_of_not_mem hnot]
      simp
    · have hmt : i ∈ t.map Reminder.id := by
        simp only [List.map_cons, List.mem_cons] at hm
        rcases hm with h | h
        · exact absurd h.symm hai
        · exact h
      simp only [List.filter_cons]
      rw [if_pos (by simp only [bne_iff_ne, ne_eq]; exact hai)]
      have := ih hnd.2 hmt
      simp only [List.length_cons]
      omega

theorem not_mem_filter_ne (l : List Reminder) (i : String) :
    i ∉ (l.filter fun r => r.id != i).map Reminder.id := by
  intro h
  rcases List.mem_map.mp h with ⟨r, hr, hid⟩
  have h2 := (List.mem_filter.mp hr).2
  simp only [bne_iff_ne, ne_eq] at h2
  exact h2 hid

theorem count_cancelAll_reschedule (now : Int) (l : List Reminder) :
    (BackendCall.cancelAll ::
      l.flatMap fun r => (scheduleNotification now r).map BackendCall.schedule).count
        BackendCall.cancelAll = 1 := by
  rw [List.count_cons_self]
  have h : (l.flatMap fun r =>
      (scheduleNotification now r).map BackendCall.schedule).count
        BackendCall.cancelAll = 0 := by
    rw [List.count_eq_zero]
    simp [List.mem_flatMap, List.mem_map]
  rw [h]

/-- C6: deleteReminder removes exactly the reminders whose id matches -
when the live ids are unique and the id is present, the list shrinks by
exactly one and no longer contains the id; when the id is absent the list
is unchanged without error - persists the updated list, and issues exactly
one system-wide cancel followed by the schedule requests of each remaining
reminder in list order, so no occurrence of a deleted reminder remains
pending. -/
theorem c6_delete_spec (state : List Reminder) (i : String) (now : Int)
    (hnd : (state.map Reminder.id).Nodup) :
    (deleteReminder state i now).reminders = state.filter (fun r => r.id != i) ∧
    (deleteReminder state i now).saved = [state.filter (fun r => r.id != i)] ∧
    (deleteReminder state i now).backend =
      BackendCall.cancelAll ::
        (state.filter (fun r => r.id != i)).flatMap
          (fun r => (scheduleNotification now r).map BackendCall.schedule) ∧
    (deleteReminder state i now).backend.count BackendCall.cancelAll = 1 ∧
    (i ∈ state.map Reminder.id →
      (state.filter (fun r => r.id != i)).length + 1 = state.length ∧
        i ∉ (state.filter (fun r => r.id != i)).map Reminder.id) ∧
    (i ∉ state.map Reminder.id → state.filter (fun r => r.id != i) = state) :=
  ⟨rfl, rfl, rfl, count_cancelAll_reschedule now _,
    fun hm => ⟨filter_ne_id_length hnd hm, not_mem_filter_ne state i⟩,
    fun hnm => filter_ne_id_of_not_mem hnm⟩

/-- C6 witness: deleting id "a" from the two-reminder collection A, B
leaves exactly B. -/
theorem c6_delete_spec_witness :
    (([{ id := "a", name := "A", time := 0, repeatCount := 1 },
       { id := "b", name := "B", time := 0, repeatCount := 1 }].map
        Reminder.id).Nodup) ∧
      (deleteReminder
        [{ id := "a", name := "A", time := 0, repeatCount := 1 },
         { id := "b", name := "B", time := 0, repeatCount := 1 }] "a" 0).reminders =
        [{ id := "a", name := "A", time := 0, repeatCount := 1 },
         { id := "b", name := "B", time := 0, repeatCount := 1 }].filter
          (fun r => r.id != "a") :=
  ⟨by decide,
    (c6_delete_spec
      [{ id := "a", name := "A", time := 0, repeatCount := 1 },
       { id := "b", name := "B", time := 0, repeatCount := 1 }] "a" 0 (by decide)).1⟩

/-- C10: deleting an id absent from the collection leaves the in-memory
list unchanged and persists the unchanged list, yet still issues a
system-wide cancel-all followed by schedule requests for every reminder in
the unchanged collection. -/
theorem c10_delete_absent (state : List Reminder) (i : String) (now : Int)
    (h : i ∉ state.map Reminder.id) :
    (deleteReminder state i now).reminders = state ∧
    (deleteReminder state i now).saved = [state] ∧
    (deleteReminder state i now).backend =
      BackendCall.cancelAll ::
        state.flatMap fun r => (scheduleNotification now r).map BackendCall.schedule := by
  have he := filter_ne_id_of_not_mem h
  exact ⟨he, by simp only [deleteReminder, he], by simp only [deleteReminder, he]⟩

/-- C10 witness: deleting the absent id "z" from a one-reminder collection
keeps the collection as it was. -/
theorem c10_delete_absent_witness :
    ("z" ∉ [{ id := "a", name := "A", time := 0, repeatCount := 1 }].map Reminder.id) ∧
      (deleteReminder
        [{ id := "a", name := "A", time := 0, repeatCount := 1 }] "z" 0).reminders =
        [{ id := "a", name := "A", time := 0, repeatCount := 1 }] :=
  ⟨by decide,
    (c10_delete_absent
      [{ id := "a", name := "A", time := 0, repeatCount := 1 }] "z" 0 (by decide)).1⟩

/-! ## Id uniqueness across operation sequences -/

theorem nodup_filter_ids {l : List Reminder} (h : (l.map Reminder.id).Nodup)
    (p : Reminder → Bool) : ((l.filter p).map Reminder.id).Nodup :=
  List.Nodup.sublist (List.Sublist.map Reminder.id (List.filter_sublist l)) h

theorem addReminder_reminders_nodup (state : List Reminder) (name rc : String)
    (time : Int) (newId : String) (now : Int)
    (hnd : (state.map Reminder.id).Nodup) (hfresh : newId ∉ state.map Reminder.id) :
    ((addReminder state name rc time newId now).reminders.map Reminder.id).Nodup := by
  unfold addReminder
  split
  · exact hnd
  · simp only [List.map_append, List.map_cons, List.map_nil]
    rw [List.nodup_append]
    exact ⟨hnd, List.nodup_singleton _,
      fun a ha hb => by
        simp only [List.mem_singleton] at hb
        exact hfresh (hb ▸ ha)⟩

theorem deleteReminder_reminders_nodup (state : List Reminder) (i : String)
    (now : Int) (hnd : (state.map Reminder.id).Nodup) :
    ((deleteReminder state i now).reminders.map Reminder.id).Nodup :=
  nodup_filter_ids hnd _

/-- C9 counterexample: identifiers come from Math.random, which may repeat.
With the id oracle returning "0.5" twice, two adds produce two distinct
reminders (different names) carrying the same id, so id uniqueness within
the live collection fails on a reachable state. -/
theorem c9_id_collision_counterexample :
    (runOps [] [Op.addOp "Water" "1" 0 "0.5" 0,
                Op.addOp "Tea" "1" 0 "0.5" 0]).map Reminder.id = ["0.5", "0.5"] ∧
      ¬ ((runOps [] [Op.addOp "Water" "1" 0 "0.5" 0,
                     Op.addOp "Tea" "1" 0 "0.5" 0]).map Reminder.id).Nodup := by
  decide

/-- C9 amended: live-collection id uniqueness is an invariant of add and
delete provided the id generator never returns an id currently in the
collection; the code itself does not enforce this (Math.random can
collide), so uniqueness holds only under that freshness assumption. -/
theorem c9_nodup_amended (ops : List Op) (state : List Reminder)
    (hnd : (state.map Reminder.id).Nodup) (hf : freshIds state ops = true) :
    ((runOps state ops).map Reminder.id).Nodup := by
  induction ops generalizing state with
  | nil => exact hnd
  | cons op rest ih =>
    simp only [freshIds, Bool.and_eq_true] at hf
    simp only [runOps]
    cases op with
    | addOp name rc time newId now =>
      refine ih _ ?_ hf.2
      apply addReminder_reminders_nodup _ _ _ _ _ _ hnd
      have h1 := hf.1
      simp only [Bool.not_eq_true'] at h1
      simp at h1
      intro hm
      rcases List.mem_map.mp hm with ⟨r, hr, hid⟩
      exact h1 r hr hid
    | deleteOp i now =>
      exact ih _ (deleteReminder_reminders_nodup _ _ _ hnd) hf.2

/-- C9 amended witness: one add with a fresh id on the empty collection
yields unique ids. -/
theorem c9_nodup_amended_witness :
    ((([] : List Reminder).map Reminder.id).Nodup ∧
        freshIds [] [Op.addOp "Water" "1" 0 "id1" 0] = true) ∧
      ((runOps [] [Op.addOp "Water" "1" 0 "id1" 0]).map Reminder.id).Nodup :=
  ⟨⟨by decide, by decide⟩,
    c9_nodup_amended [Op.addOp "Water" "1" 0 "id1" 0] [] (by decide) (by decide)⟩

end Nudgy
